import Mathlib

/-!
Verification of the alphabetical-grid-extension repository.

The repository's `extension.js` implements a synchronization controller
(`AppGridExtension`) that patches the GNOME shell's app grid, listens to
change events, and serializes reorder requests through a single-flight
lock (`_currentlyUpdating`) plus a 100 ms debounce timer.  The comparator
and folder-reordering engine lives in `lib/AppGridHelper.js`, which is not
part of the sources available here; those functions are modelled from the
specification (section 4.1), as marked on each definition.

The controller is embedded as explicit state passing: `Ctrl` holds the
fields of the `AppGridExtension` instance, `World` holds the host-visible
state (settings stores, signal connections, GLib timer sources, folder
storage, and instrumentation counters for redisplay and sort calls).
-/

/-- Kind of an entry in the launcher grid: an application shortcut or a
folder. -/
inductive ItemKind where
  | app : ItemKind
  | folder : ItemKind
deriving DecidableEq, Repr

/-- A grid item: stable id, kind, and the display name used for
alphabetical comparison. -/
structure GridItem where
  id : String
  kind : ItemKind
  displayName : String
deriving DecidableEq, Repr

/-- The `folder-order-position` configuration value: whether folders sort
before all apps, after all apps, or interleave alphabetically. -/
inductive FolderPosition where
  | first : FolderPosition
  | last : FolderPosition
  | default : FolderPosition
deriving DecidableEq, Repr

/-- Case-insensitive key of an item: the characters of its display name,
lower-cased, compared lexicographically. -/
def lowerName (x : GridItem) : List Char :=
  x.displayName.data.map Char.toLower

/-- Three-way case-insensitive name comparison as an integer in
{-1, 0, 1}. -/
def cmpInt (x y : List Char) : Int :=
  if x < y then -1 else if y < x then 1 else 0

/-- Three-way comparison of naturals as an integer in {-1, 0, 1}. -/
def natCmpInt (m n : Nat) : Int :=
  if m < n then -1 else if n < m then 1 else 0

/-- Rank of a folder id in the pinned folder order: its index in the
pinned list, with unlisted folders placed after all listed ones. -/
def pinRank (pinned : List String) (i : String) : Nat :=
  match pinned.indexOf? i with
  | some k => k
  | none => pinned.length

/-- Modelled from the spec: `compareItems` of `lib/AppGridHelper.js`
(missing from the available sources).  Per section 4.1: with position
`First` any folder sorts before any app and with `Last` after; ties among
folders are broken by pinned rank, remaining ties (and all app/app or
mixed `Default` pairs) by case-insensitive lexicographic comparison of
display names. -/
def compareItems (a b : GridItem) (pos : FolderPosition)
    (pinned : List String) : Int :=
  match a.kind, b.kind, pos with
  | .folder, .app, .first => -1
  | .folder, .app, .last => 1
  | .app, .folder, .first => 1
  | .app, .folder, .last => -1
  | .folder, .folder, _ =>
      let r := natCmpInt (pinRank pinned a.id) (pinRank pinned b.id)
      if r = 0 then cmpInt (lowerName a) (lowerName b) else r
  | _, _, _ => cmpInt (lowerName a) (lowerName b)

/-- A folder's stored contents: its id and the ordered child list. -/
structure FolderState where
  id : String
  children : List GridItem
deriving DecidableEq, Repr

/-- Ordering relation used to sort folder children: case-insensitive
lexicographic order of display names. -/
def childLE (x y : GridItem) : Prop :=
  lowerName x ≤ lowerName y

instance : DecidableRel childLE := fun x y =>
  inferInstanceAs (Decidable (lowerName x ≤ lowerName y))

instance : IsTotal GridItem childLE :=
  ⟨fun x y => le_total (lowerName x) (lowerName y)⟩

instance : IsTrans GridItem childLE :=
  ⟨fun _ _ _ h h' => le_trans h h'⟩

/-- Sort a child list case-insensitively by display name. -/
def sortChildren (l : List GridItem) : List GridItem :=
  List.insertionSort childLE l

/-- Modelled from the spec: `reorderFolderContents` of
`lib/AppGridHelper.js` (missing from the available sources).  Per section
4.1: replaces every folder's stored child order with a case-insensitive
lexicographic sort of the children by display name. -/
def reorderFolderContents (fs : List FolderState) : List FolderState :=
  fs.map fun f => { f with children := sortChildren f.children }


/-- External event sources the controller subscribes to in
`startListeners` (extension.js lines 119-131): the six change signals and
the overview state-adjustment notification. -/
inductive Signal where
  | reorder : Signal
  | dragReorder : Signal
  | favouriteApps : Signal
  | settingsChanged : Signal
  | installedApps : Signal
  | foldersChanged : Signal
  | reorderOnDisplay : Signal
deriving DecidableEq, Repr

/-- Settings visible to the controller: the extension's own keys and the
shared `folder-children` list (also used as the pinned folder order). -/
structure Settings where
  sortFolderContents : Bool
  loggingEnabled : Bool
  folderOrderPosition : FolderPosition
  folderChildren : List String
deriving DecidableEq, Repr

/-- Fields of the `AppGridExtension` instance (extension.js lines 51-61
and the signal-id fields assigned by the `_waitFor*` helpers).  Stored
signal ids are modelled as the `Signal` they refer to; `none` models the
JavaScript `undefined` before assignment.  The constructor initializes
only `_currentlyUpdating`. -/
structure Ctrl where
  currentlyUpdating : Bool := false
  reorderGridTimeoutId : Option Nat := none
  reorderSignal : Option Signal := none
  dragReorderSignal : Option Signal := none
  favouriteAppsSignal : Option Signal := none
  settingsChangedSignal : Option Signal := none
  installedAppsChangedSignal : Option Signal := none
  foldersChangedSignal : Option Signal := none
  reorderOnDisplaySignal : Option Signal := none
deriving DecidableEq, Repr

/-- Host-visible state: settings stores, the host grid's busy flag, the
folder storage mutated by `reorderFolderContents`, live signal
connections, pending GLib timer sources with a fresh-id counter, the
count of redisplay (`reloadAppGrid`) invocations, the count of
folder-content sorts, the count of release calls issued with an id that
no longer names a live resource (the host logs a warning for these), the
global `loggingEnabled` variable, and whether the shell is patched. -/
structure World where
  settings : Settings
  updatingPages : Bool
  folders : List FolderState
  connections : List Signal
  pendingTimers : List Nat
  nextTimerId : Nat
  redisplayCount : Nat
  folderSortCount : Nat
  invalidReleases : Nat
  globalLoggingEnabled : Bool
  patched : Bool
deriving DecidableEq, Repr

/-- Modelled from the spec: `reloadAppGrid` of `lib/AppGridHelper.js`
(missing from the available sources), the host-facing trampoline that
rebuilds the grid; observed here as a counter increment. -/
def reloadAppGrid (w : World) : World :=
  { w with redisplayCount := w.redisplayCount + 1 }

/-- The folder-content sorting step of `reorderGrid` (extension.js lines
101-104): runs `reorderFolderContents` only when the
`sort-folder-contents` setting is enabled. -/
def sortFolderStep (w : World) : World :=
  if w.settings.sortFolderContents = true then
    { w with folders := reorderFolderContents w.folders,
             folderSortCount := w.folderSortCount + 1 }
  else w

/-- `reorderGrid` (extension.js lines 94-115): if neither the
controller's lock nor the host's `_updatingPages` flag is set, take the
lock, conditionally sort folder contents, and schedule the 100 ms
debounce timer; otherwise do nothing. -/
def reorderGrid (c : Ctrl) (w : World) : Ctrl × World :=
  if c.currentlyUpdating = false ∧ w.updatingPages = false then
    let w1 := sortFolderStep w
    ({ c with currentlyUpdating := true,
              reorderGridTimeoutId := some w1.nextTimerId },
     { w1 with pendingTimers := w1.pendingTimers ++ [w1.nextTimerId],
               nextTimerId := w1.nextTimerId + 1 })
  else (c, w)

/-- Dispatch of a scheduled GLib source (the callback of extension.js
lines 107-113): only a still-pending source fires; it redisplays the
grid, releases the lock, clears the stored timer id, and returns
`SOURCE_REMOVE`, which removes the source. -/
def dispatchTimer (tid : Nat) (c : Ctrl) (w : World) : Ctrl × World :=
  if tid ∈ w.pendingTimers then
    let w1 := reloadAppGrid w
    ({ c with currentlyUpdating := false, reorderGridTimeoutId := none },
     { w1 with pendingTimers := w1.pendingTimers.erase tid })
  else (c, w)

/-- Host signal connection: registers a live connection and returns its
id (modelled as the signal itself). -/
def hostConnect (sig : Signal) (w : World) : World :=
  { w with connections := w.connections ++ [sig] }

/-- Host signal disconnection with a stored id: a live connection is
removed; an id that names no live connection (stale or `undefined`) is a
warned no-op, counted in `invalidReleases`. -/
def hostDisconnect (sid : Option Signal) (w : World) : World :=
  match sid with
  | some sig =>
      if sig ∈ w.connections then
        { w with connections := w.connections.erase sig }
      else { w with invalidReleases := w.invalidReleases + 1 }
  | none => { w with invalidReleases := w.invalidReleases + 1 }

/-- `GLib.Source.remove`: removing a live source succeeds; a stale id is
a warned no-op, counted in `invalidReleases`. -/
def hostSourceRemove (tid : Nat) (w : World) : World :=
  if tid ∈ w.pendingTimers then
    { w with pendingTimers := w.pendingTimers.erase tid }
  else { w with invalidReleases := w.invalidReleases + 1 }

/-- `startListeners` (extension.js lines 119-131): connects the six
change signals via the `_waitFor*` helpers, then the recurring
display-state connection via `_reorderOnDisplay`, storing each id. -/
def startListeners (c : Ctrl) (w : World) : Ctrl × World :=
  let w := hostConnect .reorder w
  let w := hostConnect .dragReorder w
  let w := hostConnect .favouriteApps w
  let w := hostConnect .settingsChanged w
  let w := hostConnect .installedApps w
  let w := hostConnect .foldersChanged w
  let w := hostConnect .reorderOnDisplay w
  ({ c with reorderSignal := some .reorder,
            dragReorderSignal := some .dragReorder,
            favouriteAppsSignal := some .favouriteApps,
            settingsChangedSignal := some .settingsChanged,
            installedAppsChangedSignal := some .installedApps,
            foldersChangedSignal := some .foldersChanged,
            reorderOnDisplaySignal := some .reorderOnDisplay }, w)

/-- `disconnectListeners` (extension.js lines 133-151): disconnects the
six signal ids unconditionally, the display-state id behind a null
guard, and removes the pending timer behind a null guard.  No stored id
is cleared. -/
def disconnectListeners (c : Ctrl) (w : World) : Ctrl × World :=
  let w := hostDisconnect c.reorderSignal w
  let w := hostDisconnect c.dragReorderSignal w
  let w := hostDisconnect c.favouriteAppsSignal w
  let w := hostDisconnect c.settingsChangedSignal w
  let w := hostDisconnect c.installedAppsChangedSignal w
  let w := hostDisconnect c.foldersChangedSignal w
  let w :=
    match c.reorderOnDisplaySignal with
    | some _ => hostDisconnect c.reorderOnDisplaySignal w
    | none => w
  let w :=
    match c.reorderGridTimeoutId with
    | some tid => hostSourceRemove tid w
    | none => w
  (c, w)

/-- `unpatchShell` (extension.js lines 85-90): `InjectionManager.clear`
restores every recorded override unconditionally. -/
def unpatchShell (w : World) : World :=
  { w with patched := false }

/-- `disable` (extension.js lines 42-48): disconnect listeners, then
unpatch the shell. -/
def disable (c : Ctrl) (w : World) : Ctrl × World :=
  let p := disconnectListeners c w
  (p.1, unpatchShell p.2)

/-- Delivery of one of the six change signals: a handler runs only while
its connection is live, and every handler calls `reorderGrid`; the
extension-settings handler additionally refreshes the global logging
flag (extension.js lines 153-201). -/
def dispatchSignal (sig : Signal) (c : Ctrl) (w : World) : Ctrl × World :=
  if sig ∈ w.connections then
    match sig with
    | .settingsChanged =>
        reorderGrid c { w with globalLoggingEnabled := w.settings.loggingEnabled }
    | .reorderOnDisplay => (c, w)
    | _ => reorderGrid c w
  else (c, w)

/-- `OverviewControls.ControlsState.APP_GRID`. -/
def APP_GRID : Nat := 2

/-- Delivery of a `notify::value` change of the overview state adjustment
carrying the new value `v` (extension.js lines 165-172): while the
connection is live, the handler requests a reorder exactly when the value
is the app-grid state; the handler never disconnects itself. -/
def dispatchStateChange (v : Nat) (c : Ctrl) (w : World) : Ctrl × World :=
  if Signal.reorderOnDisplay ∈ w.connections then
    if v = APP_GRID then reorderGrid c w else (c, w)
  else (c, w)

/-- Sample items used to evaluate the comparator claims on concrete
inputs. -/
def folderZeta : GridItem := ⟨"folder1", ItemKind.folder, "Zeta"⟩

def appAlpha : GridItem := ⟨"app1", ItemKind.app, "Alpha"⟩

def folderBeta : GridItem := ⟨"f1", ItemKind.folder, "Beta"⟩

def folderAlpha : GridItem := ⟨"f2", ItemKind.folder, "Alpha"⟩

/-- `_patchedCompareItems` (extension.js lines 67-71): the comparator
installed by `patchShell`; on every invocation it reads
`folder-order-position` and `folder-children` from the settings stores of
the call-time world, then delegates to `compareItems`. -/
def patchedCompareItems (w : World) (a b : GridItem) : Int :=
  compareItems a b w.settings.folderOrderPosition w.settings.folderChildren

/-- `patchShell` (extension.js lines 63-83): installs the comparator
override and the redisplay override.  The first component is the
installed comparator, a function of the call-time world; the patch-time
world is used only to record that the shell is patched. -/
def patchShell (wPatch : World) : (World → GridItem → GridItem → Int) × World :=
  (fun wCall a b => patchedCompareItems wCall a b, { wPatch with patched := true })

/-- A settings write of `folder-order-position`. -/
def setFolderOrderPosition (w : World) (p : FolderPosition) : World :=
  { w with settings := { w.settings with folderOrderPosition := p } }

/-- A settings write of `folder-children`. -/
def setFolderChildren (w : World) (l : List String) : World :=
  { w with settings := { w.settings with folderChildren := l } }

/-- Sample settings used to evaluate the controller claims on concrete
states. -/
def sampleSettings : Settings :=
  { sortFolderContents := true
    loggingEnabled := false
    folderOrderPosition := FolderPosition.first
    folderChildren := [] }

/-- A concrete freshly-enabled host state: no connections, no pending
timers, host not mid-update. -/
def w0 : World :=
  { settings := sampleSettings
    updatingPages := false
    folders := [⟨"f1", [folderBeta, folderAlpha]⟩]
    connections := []
    pendingTimers := []
    nextTimerId := 0
    redisplayCount := 0
    folderSortCount := 0
    invalidReleases := 0
    globalLoggingEnabled := false
    patched := true }

/-- A controller whose single-flight lock is held. -/
def busyCtrl : Ctrl := { currentlyUpdating := true }

/-- One full enable-and-teardown run on the concrete state: wire the
listeners, run one reorder (scheduling its timer), then tear down once. -/
def teardownOnce : Ctrl × World :=
  let p := startListeners {} w0
  let q := reorderGrid p.1 p.2
  disconnectListeners q.1 q.2

/-- Tearing down a second time after `teardownOnce`. -/
def teardownTwice : Ctrl × World :=
  disconnectListeners teardownOnce.1 teardownOnce.2

theorem sortChildren_idem (l : List GridItem) :
    sortChildren (sortChildren l) = sortChildren l :=
  List.Sorted.insertionSort_eq (List.sorted_insertionSort childLE l)

theorem cmpInt_neg (x y : List Char) : cmpInt x y = -(cmpInt y x) := by
  unfold cmpInt
  rcases lt_trichotomy x y with h | h | h
  · simp [h, asymm h]
  · simp [h, lt_irrefl]
  · simp [h, asymm h]

theorem natCmpInt_neg (m n : Nat) : natCmpInt m n = -(natCmpInt n m) := by
  unfold natCmpInt
  rcases lt_trichotomy m n with h | h | h
  · simp [h, asymm h]
  · simp [h, lt_irrefl]
  · simp [h, asymm h]

theorem threeway_neg {r s r' s' : Int} (hr : r' = -r) (hs : s' = -s) :
    (if r' = 0 then s' else r') = -(if r = 0 then s else r) := by
  subst hr hs
  by_cases h : r = 0 <;> simp [h, neg_eq_zero]

theorem compareItems_antisymm (a b : GridItem) (pos : FolderPosition)
    (pinned : List String) :
    compareItems a b pos pinned = -(compareItems b a pos pinned) := by
  obtain ⟨ia, ka, na⟩ := a
  obtain ⟨ib, kb, nb⟩ := b
  cases ka <;> cases kb <;> cases pos <;> simp only [compareItems] <;>
    first
      | decide
      | exact cmpInt_neg _ _
      | exact threeway_neg (natCmpInt_neg _ _) (cmpInt_neg _ _)

/-- C7: `reorderFolderContents` is idempotent: applying it twice yields
the same stored child order as applying it once, and re-running it on
unchanged children reproduces the same order. -/
theorem reorderFolderContents_idem (fs : List FolderState) :
    reorderFolderContents (reorderFolderContents fs) = reorderFolderContents fs := by
  induction fs with
  | nil => rfl
  | cons f t ih =>
      simp only [reorderFolderContents, List.map_cons, List.map_map] at ih ⊢
      simp [sortChildren_idem, ih]

/-- C5: with folder position `First`, any folder compares before any app
(negative result) and with `Last` after (positive result); among two
folders, a strictly smaller pinned rank wins, and equal pinned ranks fall
back to case-insensitive comparison of display names. -/
theorem compareItems_folderPosition (a b : GridItem) (pos : FolderPosition)
    (pinned : List String) :
    (a.kind = .folder → b.kind = .app →
      ((pos = .first → compareItems a b pos pinned < 0) ∧
       (pos = .last → 0 < compareItems a b pos pinned))) ∧
    (a.kind = .folder → b.kind = .folder →
      ((pinRank pinned a.id < pinRank pinned b.id →
          compareItems a b pos pinned < 0) ∧
       (pinRank pinned a.id = pinRank pinned b.id →
          compareItems a b pos pinned = cmpInt (lowerName a) (lowerName b)))) := by
  obtain ⟨ia, ka, na⟩ := a
  obtain ⟨ib, kb, nb⟩ := b
  refine ⟨fun ha hb => ?_, fun ha hb => ?_⟩ <;>
    simp only [] at ha hb <;> subst ha <;> subst hb
  · exact ⟨fun hp => by subst hp; simp [compareItems],
           fun hp => by subst hp; simp [compareItems]⟩
  · constructor
    · intro h
      simp [compareItems, natCmpInt, h]
    · intro h
      simp [compareItems, natCmpInt, h, lt_irrefl]

theorem compareItems_folderPosition_witness :
    compareItems folderZeta appAlpha .first ["folder2", "folder1"] < 0 ∧
    0 < compareItems folderZeta appAlpha .last ["folder2", "folder1"] ∧
    compareItems folderBeta folderAlpha .first ["f1", "f2"] < 0 :=
  ⟨((compareItems_folderPosition folderZeta appAlpha .first
      ["folder2", "folder1"]).1 rfl rfl).1 rfl,
   ((compareItems_folderPosition folderZeta appAlpha .last
      ["folder2", "folder1"]).1 rfl rfl).2 rfl,
   ((compareItems_folderPosition folderBeta folderAlpha .first
      ["f1", "f2"]).2 rfl rfl).1 (by decide)⟩

/-- C6 counterexample: two folders with distinct display names where the
pinned rank dictates the opposite order from the case-insensitive name
comparison, so `compareItems` does not agree in sign with the name
comparison for every same-kind pair. -/
theorem compareItems_signAgreement_counterexample :
    compareItems folderBeta folderAlpha .first ["f1", "f2"] < 0 ∧
    folderBeta.displayName ≠ folderAlpha.displayName ∧
    lowerName folderAlpha < lowerName folderBeta := by
  decide

/-- C6 (amended): `compareItems` is antisymmetric, and for same-kind
pairs that are both apps or both folders of equal pinned rank it equals
the case-insensitive lexicographic comparison of display names (hence
agrees with it in sign). -/
theorem compareItems_signAgreement (a b : GridItem) (pos : FolderPosition)
    (pinned : List String) :
    (compareItems a b pos pinned = -(compareItems b a pos pinned)) ∧
    (a.kind = b.kind →
      (a.kind = .app ∨ pinRank pinned a.id = pinRank pinned b.id) →
      compareItems a b pos pinned = cmpInt (lowerName a) (lowerName b)) := by
  refine ⟨compareItems_antisymm a b pos pinned, fun hk hor => ?_⟩
  obtain ⟨ia, ka, na⟩ := a
  obtain ⟨ib, kb, nb⟩ := b
  simp only [] at hk
  cases ka
  · subst hk
    cases pos <;> simp [compareItems]
  · subst hk
    rcases hor with h | h
    · exact absurd h (by simp)
    · simp only [] at h
      cases pos <;> simp [compareItems, natCmpInt, h, lt_irrefl]

theorem compareItems_signAgreement_witness :
    compareItems appAlpha folderZeta .first ["folder1"]
      = -(compareItems folderZeta appAlpha .first ["folder1"]) ∧
    compareItems folderBeta folderAlpha .default []
      = cmpInt (lowerName folderBeta) (lowerName folderAlpha) :=
  ⟨(compareItems_signAgreement appAlpha folderZeta .first ["folder1"]).1,
   (compareItems_signAgreement folderBeta folderAlpha .default []).2 rfl
     (Or.inr rfl)⟩

theorem sortFolderStep_pendingTimers (w : World) :
    (sortFolderStep w).pendingTimers = w.pendingTimers := by
  unfold sortFolderStep; split <;> rfl

theorem sortFolderStep_nextTimerId (w : World) :
    (sortFolderStep w).nextTimerId = w.nextTimerId := by
  unfold sortFolderStep; split <;> rfl

theorem sortFolderStep_redisplayCount (w : World) :
    (sortFolderStep w).redisplayCount = w.redisplayCount := by
  unfold sortFolderStep; split <;> rfl

theorem sortFolderStep_connections (w : World) :
    (sortFolderStep w).connections = w.connections := by
  unfold sortFolderStep; split <;> rfl

theorem sortFolderStep_updatingPages (w : World) :
    (sortFolderStep w).updatingPages = w.updatingPages := by
  unfold sortFolderStep; split <;> rfl

theorem reorderGrid_run (c : Ctrl) (w : World)
    (h1 : c.currentlyUpdating = false) (h2 : w.updatingPages = false) :
    reorderGrid c w =
      ({ c with currentlyUpdating := true,
                reorderGridTimeoutId := some w.nextTimerId },
       { sortFolderStep w with
           pendingTimers := w.pendingTimers ++ [w.nextTimerId],
           nextTimerId := w.nextTimerId + 1 }) := by
  unfold reorderGrid
  rw [if_pos ⟨h1, h2⟩]
  simp only [sortFolderStep_nextTimerId, sortFolderStep_pendingTimers]

theorem reorderGrid_connections (c : Ctrl) (w : World) :
    (reorderGrid c w).2.connections = w.connections := by
  unfold reorderGrid
  split
  · simp [sortFolderStep_connections]
  · rfl

/-- C1: a trigger delivered while the lock `_currentlyUpdating` is held
leaves the controller and the host untouched, so a burst of triggers
while one reorder is in flight yields exactly one redisplay when the
debounce timer fires. -/
theorem reorderGrid_singleFlight :
    (∀ (c : Ctrl) (w : World), c.currentlyUpdating = true →
      reorderGrid c w = (c, w)) ∧
    (∀ (c : Ctrl) (w : World), c.currentlyUpdating = false →
      w.updatingPages = false →
      reorderGrid (reorderGrid c w).1 (reorderGrid c w).2 = reorderGrid c w ∧
      (dispatchTimer w.nextTimerId (reorderGrid c w).1
          (reorderGrid c w).2).2.redisplayCount = w.redisplayCount + 1) := by
  constructor
  · intro c w h
    simp [reorderGrid, h]
  · intro c w h1 h2
    rw [reorderGrid_run c w h1 h2]
    constructor
    · simp [reorderGrid]
    · simp [dispatchTimer, reloadAppGrid, sortFolderStep_redisplayCount]

theorem reorderGrid_singleFlight_witness :
    reorderGrid busyCtrl w0 = (busyCtrl, w0) ∧
    (reorderGrid (reorderGrid {} w0).1 (reorderGrid {} w0).2
        = reorderGrid {} w0 ∧
     (dispatchTimer w0.nextTimerId (reorderGrid {} w0).1
        (reorderGrid {} w0).2).2.redisplayCount = w0.redisplayCount + 1) :=
  ⟨reorderGrid_singleFlight.1 busyCtrl w0 rfl,
   reorderGrid_singleFlight.2 {} w0 rfl rfl⟩

/-- C2: from an idle controller and a non-updating host, `reorderGrid`
takes the lock, stores the fresh timer id, sorts folder contents exactly
when `sort-folder-contents` is enabled, and schedules the debounce
source; when that source fires it redisplays once, releases the lock,
and clears the timer handle. -/
theorem reorderGrid_idle_transition (c : Ctrl) (w : World)
    (h1 : c.currentlyUpdating = false) (h2 : w.updatingPages = false) :
    (reorderGrid c w).1.currentlyUpdating = true ∧
    (reorderGrid c w).1.reorderGridTimeoutId = some w.nextTimerId ∧
    (w.settings.sortFolderContents = true →
      (reorderGrid c w).2.folders = reorderFolderContents w.folders ∧
      (reorderGrid c w).2.folderSortCount = w.folderSortCount + 1) ∧
    (w.settings.sortFolderContents = false →
      (reorderGrid c w).2.folders = w.folders ∧
      (reorderGrid c w).2.folderSortCount = w.folderSortCount) ∧
    (reorderGrid c w).2.pendingTimers = w.pendingTimers ++ [w.nextTimerId] ∧
    (dispatchTimer w.nextTimerId (reorderGrid c w).1
        (reorderGrid c w).2).2.redisplayCount = w.redisplayCount + 1 ∧
    (dispatchTimer w.nextTimerId (reorderGrid c w).1
        (reorderGrid c w).2).1.currentlyUpdating = false ∧
    (dispatchTimer w.nextTimerId (reorderGrid c w).1
        (reorderGrid c w).2).1.reorderGridTimeoutId = none := by
  rw [reorderGrid_run c w h1 h2]
  refine ⟨rfl, rfl, fun hs => ?_, fun hs => ?_, rfl, ?_, ?_, ?_⟩
  · simp [sortFolderStep, hs]
  · simp [sortFolderStep, hs]
  · simp [dispatchTimer, reloadAppGrid, sortFolderStep_redisplayCount]
  · simp [dispatchTimer]
  · simp [dispatchTimer]

theorem reorderGrid_idle_transition_witness :
    (reorderGrid {} w0).1.currentlyUpdating = true ∧
    (reorderGrid {} w0).1.reorderGridTimeoutId = some w0.nextTimerId ∧
    (w0.settings.sortFolderContents = true →
      (reorderGrid {} w0).2.folders = reorderFolderContents w0.folders ∧
      (reorderGrid {} w0).2.folderSortCount = w0.folderSortCount + 1) ∧
    (w0.settings.sortFolderContents = false →
      (reorderGrid {} w0).2.folders = w0.folders ∧
      (reorderGrid {} w0).2.folderSortCount = w0.folderSortCount) ∧
    (reorderGrid {} w0).2.pendingTimers = w0.pendingTimers ++ [w0.nextTimerId] ∧
    (dispatchTimer w0.nextTimerId (reorderGrid {} w0).1
        (reorderGrid {} w0).2).2.redisplayCount = w0.redisplayCount + 1 ∧
    (dispatchTimer w0.nextTimerId (reorderGrid {} w0).1
        (reorderGrid {} w0).2).1.currentlyUpdating = false ∧
    (dispatchTimer w0.nextTimerId (reorderGrid {} w0).1
        (reorderGrid {} w0).2).1.reorderGridTimeoutId = none :=
  reorderGrid_idle_transition {} w0 rfl rfl

theorem hostDisconnect_pendingTimers (sid : Option Signal) (w : World) :
    (hostDisconnect sid w).pendingTimers = w.pendingTimers := by
  cases sid with
  | none => rfl
  | some s => by_cases hm : s ∈ w.connections <;> simp [hostDisconnect, hm]

theorem hostDisconnect_folders (sid : Option Signal) (w : World) :
    (hostDisconnect sid w).folders = w.folders := by
  cases sid with
  | none => rfl
  | some s => by_cases hm : s ∈ w.connections <;> simp [hostDisconnect, hm]

theorem hostDisconnect_redisplayCount (sid : Option Signal) (w : World) :
    (hostDisconnect sid w).redisplayCount = w.redisplayCount := by
  cases sid with
  | none => rfl
  | some s => by_cases hm : s ∈ w.connections <;> simp [hostDisconnect, hm]

theorem hostSourceRemove_connections (tid : Nat) (w : World) :
    (hostSourceRemove tid w).connections = w.connections := by
  by_cases hm : tid ∈ w.pendingTimers <;> simp [hostSourceRemove, hm]

theorem hostSourceRemove_folders (tid : Nat) (w : World) :
    (hostSourceRemove tid w).folders = w.folders := by
  by_cases hm : tid ∈ w.pendingTimers <;> simp [hostSourceRemove, hm]

theorem hostSourceRemove_redisplayCount (tid : Nat) (w : World) :
    (hostSourceRemove tid w).redisplayCount = w.redisplayCount := by
  by_cases hm : tid ∈ w.pendingTimers <;> simp [hostSourceRemove, hm]

theorem hostSourceRemove_pendingTimers (tid : Nat) (w : World) :
    (hostSourceRemove tid w).pendingTimers =
      if tid ∈ w.pendingTimers then w.pendingTimers.erase tid
      else w.pendingTimers := by
  by_cases hm : tid ∈ w.pendingTimers <;> simp [hostSourceRemove, hm]

theorem disconnectListeners_pendingTimers (c : Ctrl) (w : World) :
    (disconnectListeners c w).2.pendingTimers =
      (match c.reorderGridTimeoutId with
       | some tid =>
           if tid ∈ w.pendingTimers then w.pendingTimers.erase tid
           else w.pendingTimers
       | none => w.pendingTimers) := by
  unfold disconnectListeners
  cases hrod : c.reorderOnDisplaySignal <;> cases htid : c.reorderGridTimeoutId <;>
    simp [hostDisconnect_pendingTimers, hostSourceRemove_pendingTimers]

theorem disconnectListeners_folders (c : Ctrl) (w : World) :
    (disconnectListeners c w).2.folders = w.folders := by
  unfold disconnectListeners
  cases hrod : c.reorderOnDisplaySignal <;> cases htid : c.reorderGridTimeoutId <;>
    simp [hostDisconnect_folders, hostSourceRemove_folders]

theorem disconnectListeners_redisplayCount (c : Ctrl) (w : World) :
    (disconnectListeners c w).2.redisplayCount = w.redisplayCount := by
  unfold disconnectListeners
  cases hrod : c.reorderOnDisplaySignal <;> cases htid : c.reorderGridTimeoutId <;>
    simp [hostDisconnect_redisplayCount, hostSourceRemove_redisplayCount]

/-- C4: with no pre-existing connections, wiring all listeners and then
tearing them down leaves no live connection, and afterwards delivering
any of the event sources (change signals or state-adjustment changes)
invokes no handler: the controller and the host state are returned
unchanged. -/
theorem startListeners_matchedTeardown (c : Ctrl) (w : World)
    (h : w.connections = []) :
    (disconnectListeners (startListeners c w).1
        (startListeners c w).2).2.connections = [] ∧
    (∀ sig : Signal, dispatchSignal sig
        (disconnectListeners (startListeners c w).1 (startListeners c w).2).1
        (disconnectListeners (startListeners c w).1 (startListeners c w).2).2
      = ((disconnectListeners (startListeners c w).1 (startListeners c w).2).1,
         (disconnectListeners (startListeners c w).1 (startListeners c w).2).2)) ∧
    (∀ v : Nat, dispatchStateChange v
        (disconnectListeners (startListeners c w).1 (startListeners c w).2).1
        (disconnectListeners (startListeners c w).1 (startListeners c w).2).2
      = ((disconnectListeners (startListeners c w).1 (startListeners c w).2).1,
         (disconnectListeners (startListeners c w).1 (startListeners c w).2).2)) := by
  have key : (disconnectListeners (startListeners c w).1
      (startListeners c w).2).2.connections = [] := by
    cases htid : c.reorderGridTimeoutId <;>
      simp [startListeners, disconnectListeners, hostConnect, hostDisconnect,
        hostSourceRemove_connections, htid, h]
  refine ⟨key, fun sig => ?_, fun v => ?_⟩
  · cases sig <;> simp [dispatchSignal, key]
  · simp [dispatchStateChange, key]

theorem startListeners_matchedTeardown_witness :
    (disconnectListeners (startListeners {} w0).1
        (startListeners {} w0).2).2.connections = [] ∧
    (∀ sig : Signal, dispatchSignal sig
        (disconnectListeners (startListeners {} w0).1 (startListeners {} w0).2).1
        (disconnectListeners (startListeners {} w0).1 (startListeners {} w0).2).2
      = ((disconnectListeners (startListeners {} w0).1 (startListeners {} w0).2).1,
         (disconnectListeners (startListeners {} w0).1 (startListeners {} w0).2).2)) ∧
    (∀ v : Nat, dispatchStateChange v
        (disconnectListeners (startListeners {} w0).1 (startListeners {} w0).2).1
        (disconnectListeners (startListeners {} w0).1 (startListeners {} w0).2).2
      = ((disconnectListeners (startListeners {} w0).1 (startListeners {} w0).2).1,
         (disconnectListeners (startListeners {} w0).1 (startListeners {} w0).2).2)) :=
  startListeners_matchedTeardown {} w0 rfl

/-- C9: the display-state trigger is recurring: while its connection is
live, every change of the overview state value to the app-grid state
requests a reorder (also on repeated deliveries, since the handler never
disconnects itself), and any other value requests nothing. -/
theorem reorderOnDisplay_recurring (c : Ctrl) (w : World) (v : Nat)
    (h : Signal.reorderOnDisplay ∈ w.connections) :
    dispatchStateChange APP_GRID c w = reorderGrid c w ∧
    (dispatchStateChange v c w).2.connections = w.connections ∧
    (v ≠ APP_GRID → dispatchStateChange v c w = (c, w)) ∧
    dispatchStateChange APP_GRID (dispatchStateChange APP_GRID c w).1
        (dispatchStateChange APP_GRID c w).2
      = reorderGrid (dispatchStateChange APP_GRID c w).1
          (dispatchStateChange APP_GRID c w).2 := by
  have h1 : dispatchStateChange APP_GRID c w = reorderGrid c w := by
    simp [dispatchStateChange, h]
  refine ⟨h1, ?_, fun hv => by simp [dispatchStateChange, h, hv], ?_⟩
  · by_cases hv : v = APP_GRID
    · subst hv
      rw [h1, reorderGrid_connections]
    · simp [dispatchStateChange, h, hv]
  · rw [h1]
    have h3 : Signal.reorderOnDisplay ∈ (reorderGrid c w).2.connections := by
      rw [reorderGrid_connections]
      exact h
    simp [dispatchStateChange, h3]

/-- A concrete state whose display-state connection is live. -/
def wDisplay : World := { w0 with connections := [Signal.reorderOnDisplay] }

theorem reorderOnDisplay_recurring_witness :
    dispatchStateChange APP_GRID {} wDisplay = reorderGrid {} wDisplay ∧
    (dispatchStateChange 1 {} wDisplay).2.connections = wDisplay.connections ∧
    (1 ≠ APP_GRID → dispatchStateChange 1 {} wDisplay = ({}, wDisplay)) ∧
    dispatchStateChange APP_GRID (dispatchStateChange APP_GRID {} wDisplay).1
        (dispatchStateChange APP_GRID {} wDisplay).2
      = reorderGrid (dispatchStateChange APP_GRID {} wDisplay).1
          (dispatchStateChange APP_GRID {} wDisplay).2 :=
  reorderOnDisplay_recurring {} wDisplay 1 (by decide)

/-- C10: if the extension is disabled while a reorder is in flight (lock
held, debounce source scheduled), teardown removes the pending source, so
no timer dispatch after shutdown runs the callback or redisplays, while
the folder contents produced by the already-performed sort are left in
place. -/
theorem disable_cancelsPendingReorder (c : Ctrl) (w : World)
    (h1 : c.currentlyUpdating = false) (h2 : w.updatingPages = false)
    (h3 : w.pendingTimers = []) :
    (reorderGrid c w).1.reorderGridTimeoutId = some w.nextTimerId ∧
    w.nextTimerId ∈ (reorderGrid c w).2.pendingTimers ∧
    (disable (reorderGrid c w).1 (reorderGrid c w).2).2.pendingTimers = [] ∧
    (∀ t : Nat, dispatchTimer t
        (disable (reorderGrid c w).1 (reorderGrid c w).2).1
        (disable (reorderGrid c w).1 (reorderGrid c w).2).2
      = ((disable (reorderGrid c w).1 (reorderGrid c w).2).1,
         (disable (reorderGrid c w).1 (reorderGrid c w).2).2)) ∧
    (disable (reorderGrid c w).1 (reorderGrid c w).2).2.folders
      = (reorderGrid c w).2.folders ∧
    (disable (reorderGrid c w).1 (reorderGrid c w).2).2.redisplayCount
      = w.redisplayCount := by
  rw [reorderGrid_run c w h1 h2]
  have hq : (disable
      { c with currentlyUpdating := true,
               reorderGridTimeoutId := some w.nextTimerId }
      { sortFolderStep w with
          pendingTimers := w.pendingTimers ++ [w.nextTimerId],
          nextTimerId := w.nextTimerId + 1 }).2.pendingTimers = [] := by
    simp [disable, unpatchShell, disconnectListeners_pendingTimers, h3]
  refine ⟨rfl, by simp, hq, fun t => by simp [dispatchTimer, hq], ?_, ?_⟩
  · simp [disable, unpatchShell, disconnectListeners_folders]
  · simp [disable, unpatchShell, disconnectListeners_redisplayCount,
      sortFolderStep_redisplayCount]

theorem disable_cancelsPendingReorder_witness :
    (reorderGrid {} w0).1.reorderGridTimeoutId = some w0.nextTimerId ∧
    w0.nextTimerId ∈ (reorderGrid {} w0).2.pendingTimers ∧
    (disable (reorderGrid {} w0).1 (reorderGrid {} w0).2).2.pendingTimers = [] ∧
    (∀ t : Nat, dispatchTimer t
        (disable (reorderGrid {} w0).1 (reorderGrid {} w0).2).1
        (disable (reorderGrid {} w0).1 (reorderGrid {} w0).2).2
      = ((disable (reorderGrid {} w0).1 (reorderGrid {} w0).2).1,
         (disable (reorderGrid {} w0).1 (reorderGrid {} w0).2).2)) ∧
    (disable (reorderGrid {} w0).1 (reorderGrid {} w0).2).2.folders
      = (reorderGrid {} w0).2.folders ∧
    (disable (reorderGrid {} w0).1 (reorderGrid {} w0).2).2.redisplayCount
      = w0.redisplayCount :=
  disable_cancelsPendingReorder {} w0 rfl rfl rfl

theorem hostDisconnect_torn (sid : Option Signal) (w : World)
    (h : w.connections = []) :
    hostDisconnect sid w = { w with invalidReleases := w.invalidReleases + 1 } := by
  cases sid with
  | none => rfl
  | some s => simp [hostDisconnect, h]

theorem hostSourceRemove_torn (tid : Nat) (w : World)
    (h : w.pendingTimers = []) :
    hostSourceRemove tid w = { w with invalidReleases := w.invalidReleases + 1 } := by
  simp [hostSourceRemove, h]

/-- C3 counterexample: after one full teardown, a second
`disconnectListeners` call is not guarded into silence: it re-issues all
seven signal disconnects and the timer removal with stale ids (the stored
ids are never cleared), producing eight release calls on resources that
are no longer live, where the first teardown produced none.  The claim
that a defensive guard precedes each teardown call and makes re-applied
teardown a plain no-op is therefore false. -/
theorem disconnectListeners_guard_counterexample :
    teardownOnce.2.invalidReleases = 0 ∧
    teardownTwice.2.connections = [] ∧
    teardownTwice.2.pendingTimers = [] ∧
    teardownTwice.2.invalidReleases = 8 := by
  decide

/-- C3 (amended): re-applying teardown on an already-torn-down state
cannot corrupt it — the controller fields, connection set, pending
timers, folder storage and redisplay count are unchanged, and
`unpatchShell` is idempotent — but this safety is not provided by guards
before each call: the release calls are re-issued with stale ids and are
tolerated by the host as warned no-ops (the invalid-release count can
only grow). -/
theorem disconnectListeners_reapply_safe (c : Ctrl) (w : World)
    (hconn : w.connections = []) (htim : w.pendingTimers = []) :
    (disconnectListeners c w).1 = c ∧
    (disconnectListeners c w).2.connections = [] ∧
    (disconnectListeners c w).2.pendingTimers = [] ∧
    (disconnectListeners c w).2.folders = w.folders ∧
    (disconnectListeners c w).2.redisplayCount = w.redisplayCount ∧
    unpatchShell (unpatchShell w) = unpatchShell w ∧
    w.invalidReleases ≤ (disconnectListeners c w).2.invalidReleases := by
  refine ⟨rfl, ?_, ?_, disconnectListeners_folders c w,
    disconnectListeners_redisplayCount c w, rfl, ?_⟩
  · unfold disconnectListeners
    cases hrod : c.reorderOnDisplaySignal <;>
      cases htid : c.reorderGridTimeoutId <;>
        simp [hostDisconnect_torn, hostSourceRemove_connections, hconn]
  · rw [disconnectListeners_pendingTimers]
    cases htid : c.reorderGridTimeoutId <;> simp [htim]
  · unfold disconnectListeners
    cases hrod : c.reorderOnDisplaySignal <;>
      cases htid : c.reorderGridTimeoutId <;>
        simp [hostDisconnect_torn, hostSourceRemove_torn, hconn, htim] <;>
          omega

theorem disconnectListeners_reapply_safe_witness :
    (disconnectListeners teardownOnce.1 teardownOnce.2).1 = teardownOnce.1 ∧
    (disconnectListeners teardownOnce.1 teardownOnce.2).2.connections = [] ∧
    (disconnectListeners teardownOnce.1 teardownOnce.2).2.pendingTimers = [] ∧
    (disconnectListeners teardownOnce.1 teardownOnce.2).2.folders
      = teardownOnce.2.folders ∧
    (disconnectListeners teardownOnce.1 teardownOnce.2).2.redisplayCount
      = teardownOnce.2.redisplayCount ∧
    unpatchShell (unpatchShell teardownOnce.2) = unpatchShell teardownOnce.2 ∧
    teardownOnce.2.invalidReleases
      ≤ (disconnectListeners teardownOnce.1 teardownOnce.2).2.invalidReleases :=
  disconnectListeners_reapply_safe teardownOnce.1 teardownOnce.2
    (by decide) (by decide)

/-- C8: the comparator installed by `patchShell` does not snapshot the
settings at patch time: it is independent of the patch-time world, equals
`compareItems` applied to the call-time settings values, and immediately
reflects settings writes made after patching, without re-patching. -/
theorem patchedComparator_readsSettingsAtCallTime (w1 w2 wc : World)
    (a b : GridItem) (p : FolderPosition) (l : List String) :
    (patchShell w1).1 wc a b = (patchShell w2).1 wc a b ∧
    (patchShell w1).1 wc a b
      = compareItems a b wc.settings.folderOrderPosition
          wc.settings.folderChildren ∧
    (patchShell w1).1 (setFolderChildren (setFolderOrderPosition wc p) l) a b
      = compareItems a b p l :=
  ⟨rfl, rfl, rfl⟩
